import Mathlib

/-! QuantLib: South Korean calendars and the analytic BSM / Hull-White engine

A shallow embedding of `ql/time/calendars/southkorea.cpp` and of the interface
declared in `ql/pricingengines/vanilla/analyticbsmhullwhiteengine.hpp`.

* The calendar rules are translated expression by expression from the C++
  source: the Boolean disjunction of `SettlementImpl::isBusinessDay` keeps the
  order and the grouping of the source.
* The engine's constructor and `calculate` are only declared in the header; the
  parts used here are modelled from the specification and say so.
-/

namespace QuantLib

/-! ## Dates as the calendars read them -/

/-- Modelled from the spec: the `Weekday` enumeration, declared in a header that
is not among the translated sources. The calendar compares a weekday with the
enumerators `Saturday` and `Sunday` only. -/
inductive Weekday where
  | Sunday | Monday | Tuesday | Wednesday | Thursday | Friday | Saturday
  deriving DecidableEq, Repr

/-- Modelled from the spec: the `Month` enumeration, declared in a header that
is not among the translated sources; the calendar compares a month with its
twelve enumerators. -/
inductive Month where
  | January | February | March | April | May | June
  | July | August | September | October | November | December
  deriving DecidableEq, Repr

/-- Modelled from the spec: a date as seen by a calendar implementation
(`isBusinessDay(date) -> bool`, section 6). The `Date` class itself is not
among the translated sources; `isBusinessDay` reads a date only through the
four accessors `weekday()`, `dayOfMonth()`, `month()` and `year()`, so a date is
the record of these four values. `Day` and `Year` are typedefs of `Integer` in
QuantLib, hence `Int` here. No consistency between the four values is assumed:
the record also covers combinations that no real date produces. -/
structure Date where
  weekday : Weekday
  dayOfMonth : Int
  month : Month
  year : Int
  deriving DecidableEq, Repr

/-! ## The Gregorian calendar

The calendars are handed dates by the `Date` class, which is not among the
translated sources. Statements about real calendar dates need the rule that
ties the four values of a `Date` record together: the length of the months and
the day of the week on which a day falls. -/

/-- Modelled from the spec: the number of a month, `January = 1` to
`December = 12`, the values of the enumerators of `Month`. -/
def Month.number : Month → Int
  | Month.January => 1
  | Month.February => 2
  | Month.March => 3
  | Month.April => 4
  | Month.May => 5
  | Month.June => 6
  | Month.July => 7
  | Month.August => 8
  | Month.September => 9
  | Month.October => 10
  | Month.November => 11
  | Month.December => 12

/-- Modelled from the spec: the Gregorian leap-year rule: every fourth year,
except the centuries not divisible by 400. -/
def isLeap (y : Int) : Bool :=
  (y % 4 == 0 && y % 100 != 0) || y % 400 == 0

/-- Modelled from the spec: the number of days of a month, February depending
on the leap year. -/
def monthLength (m : Month) (leapYear : Bool) : Int :=
  match m with
  | Month.January => 31
  | Month.February => if leapYear then 29 else 28
  | Month.March => 31
  | Month.April => 30
  | Month.May => 31
  | Month.June => 30
  | Month.July => 31
  | Month.August => 31
  | Month.September => 30
  | Month.October => 31
  | Month.November => 30
  | Month.December => 31

/-- Modelled from the spec: the Julian day number of a Gregorian date (the
standard integer formula: years and months are counted from 1 March, so that
the leap day is the last day of the counted year). Consecutive days have
consecutive numbers. -/
def julianDayNumber (y : Int) (m : Month) (d : Int) : Int :=
  let a := (14 - m.number) / 12
  let y1 := y + 4800 - a
  let m1 := m.number + 12 * a - 3
  d + (153 * m1 + 2) / 5 + 365 * y1 + y1 / 4 - y1 / 100 + y1 / 400 - 32045

/-- Modelled from the spec: the day of the week of a Gregorian date; Julian day
numbers divisible by 7 are Mondays. -/
def weekdayOf (y : Int) (m : Month) (d : Int) : Weekday :=
  match (julianDayNumber y m d % 7).toNat with
  | 0 => Weekday.Monday
  | 1 => Weekday.Tuesday
  | 2 => Weekday.Wednesday
  | 3 => Weekday.Thursday
  | 4 => Weekday.Friday
  | 5 => Weekday.Saturday
  | _ => Weekday.Sunday

/-- A `Date` record that a real date produces: the day of month exists in the
month of that year, and the weekday is the day of the week of that day. -/
def Date.isGregorian (date : Date) : Bool :=
  decide (1 ≤ date.dayOfMonth)
  && decide (date.dayOfMonth ≤ monthLength date.month (isLeap date.year))
  && date.weekday == weekdayOf date.year date.month date.dayOfMonth

/-! ## `southkorea.cpp` -/

namespace SouthKorea

/-- Modelled from the spec: the market enum of `southkorea.hpp`, which is not
among the translated sources. The spec calls it "a market enum" with a
settlement case and an exchange case. A C++ enum object can carry any value of
its underlying integer type, which is what the `default:` branch of the
constructor guards against, so a market is its underlying integer value. -/
abbrev Market := Int

/-- Modelled from the spec: enumerator `SouthKorea::Settlement` (public
holidays), the settlement case of the market enum, taken as its first value.
Only its being distinct from `KRX` is used. -/
def Settlement : Market := 0

/-- Modelled from the spec: enumerator `SouthKorea::KRX` (Korea exchange), the
exchange case of the market enum, taken as its second value. -/
def KRX : Market := 1

/-- `SouthKorea::SettlementImpl::isWeekend`. -/
def SettlementImpl.isWeekend (w : Weekday) : Bool :=
  w == Weekday.Saturday || w == Weekday.Sunday

open Month in
/-- `SouthKorea::SettlementImpl::isBusinessDay`. -/
def SettlementImpl.isBusinessDay (date : Date) : Bool :=
  let w := date.weekday
  let d := date.dayOfMonth
  let m := date.month
  let y := date.year
  if (SettlementImpl.isWeekend w
      -- New Year's Day
      || (d == 1 && m == January)
      -- Independence Day
      || (d == 1 && m == March)
      -- Arbour Day
      || (d == 5 && m == April && decide (y ≤ 2005))
      -- Labour Day
      || (d == 1 && m == May)
      -- Children's Day
      || (d == 5 && m == May)
      -- Memorial Day
      || (d == 6 && m == June)
      -- Constitution Day
      || (d == 17 && m == July && decide (y ≤ 2007))
      -- Liberation Day
      || (d == 15 && m == August)
      -- National Foundation Day
      || (d == 3 && m == October)
      -- Christmas Day
      || (d == 25 && m == December)

      -- Lunar New Year
      || ((d == 21 || d == 22 || d == 23) && m == January && y == 2004)
      || ((d == 8 || d == 9 || d == 10) && m == February && y == 2005)
      || ((d == 28 || d == 29 || d == 30) && m == January && y == 2006)
      || (d == 19 && m == February && y == 2007)
      || ((d == 6 || d == 7 || d == 8) && m == February && y == 2008)
      || ((d == 25 || d == 26 || d == 27) && m == January && y == 2009)
      || ((d == 13 || d == 14 || d == 15) && m == February && y == 2010)
      || ((d == 2 || d == 3 || d == 4) && m == February && y == 2011)
      || ((d == 23 || d == 24) && m == January && y == 2012)
      || (d == 11 && m == February && y == 2013)
      -- Election Days
      || (d == 15 && m == April && y == 2004)    -- National Assembly
      || (d == 31 && m == May && y == 2006)      -- Regional election
      || (d == 19 && m == December && y == 2007) -- Presidency
      || (d == 9 && m == April && y == 2008)     -- National Assembly
      || (d == 2 && m == June && y == 2010)      -- Local election
      || (d == 11 && m == April && y == 2012)    -- National Assembly
      || (d == 19 && m == December && y == 2012) -- Presidency
      -- Buddha's birthday
      || (d == 26 && m == May && y == 2004)
      || (d == 15 && m == May && y == 2005)
      || (d == 5 && m == May && y == 2006)
      || (d == 24 && m == May && y == 2007)
      || (d == 12 && m == May && y == 2008)
      || (d == 2 && m == May && y == 2009)
      || (d == 21 && m == May && y == 2010)
      || (d == 10 && m == May && y == 2011)
      || (d == 28 && m == May && y == 2012)
      || (d == 17 && m == May && y == 2013)
      -- Harvest Moon Day
      || ((d == 27 || d == 28 || d == 29) && m == September && y == 2004)
      || ((d == 17 || d == 18 || d == 19) && m == September && y == 2005)
      || ((d == 5 || d == 6 || d == 7) && m == October && y == 2006)
      || ((d == 24 || d == 25 || d == 26) && m == September && y == 2007)
      || ((d == 13 || d == 14 || d == 15) && m == September && y == 2008)
      || ((d == 2 || d == 3 || d == 4) && m == October && y == 2009)
      || ((d == 21 || d == 22 || d == 23) && m == September && y == 2010)
      || ((d == 12 || d == 13) && m == September && y == 2011)
      || (d == 1 && m == October && y == 2012)
      || ((d == 18 || d == 19 || d == 20) && m == September && y == 2013))
  then false
  else true

open Month in
/-- `SouthKorea::KrxImpl::isBusinessDay`. -/
def KrxImpl.isBusinessDay (date : Date) : Bool :=
  -- public holidays
  if !SettlementImpl.isBusinessDay date then false
  else
    let d := date.dayOfMonth
    let m := date.month
    let y := date.year
    if ( -- Year-end closing
           (d == 31 && m == December && y == 2004)
        || (d == 30 && m == December && y == 2005)
        || (d == 29 && m == December && y == 2006)
        || (d == 31 && m == December && y == 2007)
        || (d == 31 && m == December && y == 2008)
        || (d == 31 && m == December && y == 2009)
        || (d == 31 && m == December && y == 2010)
        || (d == 30 && m == December && y == 2011)
        || (d == 31 && m == December && y == 2012)
        || (d == 31 && m == December && y == 2013))
    then false
    else true

/-- Modelled from the spec: `Calendar::Impl`, the implementation object a
calendar points to (`calendar.hpp` is not among the translated sources). The
constructor of `SouthKorea` creates exactly two shared instances,
`settlementImpl` and `krxImpl`. -/
inductive Impl where
  | settlementImpl
  | krxImpl
  deriving DecidableEq, Repr

/-- Virtual dispatch of `Calendar::Impl::isBusinessDay`: the instance of class
`SettlementImpl` runs `SettlementImpl::isBusinessDay`, the instance of class
`KrxImpl` runs the override `KrxImpl::isBusinessDay`. -/
def Impl.isBusinessDay : Impl → Date → Bool
  | Impl.settlementImpl => SettlementImpl.isBusinessDay
  | Impl.krxImpl => KrxImpl.isBusinessDay

/-- Modelled from the spec: the calendar object, of which the constructor sets
the one data member `impl_`. -/
structure Calendar where
  impl_ : Impl
  deriving DecidableEq, Repr

set_option linter.dupNamespace false in
/-- `SouthKorea::SouthKorea(Market market)`: the `switch` over the market with
its `default:` branch; `QL_FAIL` raises an error carrying the message. -/
def SouthKorea (market : Market) : Except String Calendar :=
  if market = Settlement then
    Except.ok ⟨Impl.settlementImpl⟩
  else if market = KRX then
    Except.ok ⟨Impl.krxImpl⟩
  else
    Except.error "unknown market"

/-! ### The methods as calls on date objects

`isBusinessDay` is a `const` member function taking a `const Date&`. To say
what a call can and cannot depend on, the call is embedded over a date object
of any class, which the calendar reads through its four accessors only, and
over a program state (the implementation object, the shared static instances,
anything else the program holds), which the call receives and returns. -/

/-- Modelled from the spec: the accessor interface of the `Date` class, which
is not among the translated sources. A date object of type `δ` may carry any
state of its own (a serial number, say); `weekday()`, `dayOfMonth()`, `month()`
and `year()` are the four `const` accessors the calendar calls on it. -/
structure DateAccessors (δ : Type) where
  weekday : δ → Weekday
  dayOfMonth : δ → Int
  month : δ → Month
  year : δ → Int

/-- A call of `SouthKorea::SettlementImpl::isBusinessDay(const Date& date) const`
in program state `state`. Lines 50 to 53 of the source read the four accessors
of the date object; lines 55 to 121 evaluate the holiday expression on the
values read, as embedded in `SettlementImpl.isBusinessDay`. The body names no
data member and no global, and assigns nothing but its four locals: the state
is returned as it was received. -/
def SettlementImpl.isBusinessDayCall {δ σ : Type} (acc : DateAccessors δ)
    (date : δ) (state : σ) : Bool × σ :=
  let w := acc.weekday date
  let d := acc.dayOfMonth date
  let m := acc.month date
  let y := acc.year date
  (SettlementImpl.isBusinessDay ⟨w, d, m, y⟩, state)

open Month in
/-- A call of `SouthKorea::KrxImpl::isBusinessDay(const Date& date) const` in
program state `state`: the call of `SettlementImpl::isBusinessDay` on the same
date object, then the accessors `dayOfMonth()`, `month()` and `year()` and the
year-end closing expression of lines 133 to 144. -/
def KrxImpl.isBusinessDayCall {δ σ : Type} (acc : DateAccessors δ)
    (date : δ) (state : σ) : Bool × σ :=
  -- public holidays
  let settlement := SettlementImpl.isBusinessDayCall acc date state
  if !settlement.1 then (false, settlement.2)
  else
    let d := acc.dayOfMonth date
    let m := acc.month date
    let y := acc.year date
    if ( -- Year-end closing
           (d == 31 && m == December && y == 2004)
        || (d == 30 && m == December && y == 2005)
        || (d == 29 && m == December && y == 2006)
        || (d == 31 && m == December && y == 2007)
        || (d == 31 && m == December && y == 2008)
        || (d == 31 && m == December && y == 2009)
        || (d == 31 && m == December && y == 2010)
        || (d == 30 && m == December && y == 2011)
        || (d == 31 && m == December && y == 2012)
        || (d == 31 && m == December && y == 2013))
    then (false, settlement.2)
    else (true, settlement.2)

/-- Virtual dispatch of a call of `isBusinessDay` through the implementation
object the market variant selected. -/
def Impl.isBusinessDayCall {δ σ : Type} (impl : Impl) (acc : DateAccessors δ)
    (date : δ) (state : σ) : Bool × σ :=
  match impl with
  | Impl.settlementImpl => SettlementImpl.isBusinessDayCall acc date state
  | Impl.krxImpl => KrxImpl.isBusinessDayCall acc date state

open Month in
/-- Fixed-date national holidays, as (day, month): New Year's Day, Independence
Day, Labour Day, Children's Day, Memorial Day, Liberation Day, National
Foundation Day, Christmas Day. -/
def fixedDateHolidays : List (Int × Month) :=
  [(1, January), (1, March), (1, May), (5, May), (6, June), (15, August),
   (3, October), (25, December)]

open Month in
/-- Cutoff-year-bounded holidays, as (day, month, last year observed): Arbour
Day and Constitution Day. -/
def cutoffYearHolidays : List (Int × Month × Int) :=
  [(5, April, 2005), (17, July, 2007)]

open Month in
/-- Lunar New Year closings 2004-2013, as (day, month, year). -/
def lunarNewYearDates : List (Int × Month × Int) :=
  [(21, January, 2004), (22, January, 2004), (23, January, 2004),
   (8, February, 2005), (9, February, 2005), (10, February, 2005),
   (28, January, 2006), (29, January, 2006), (30, January, 2006),
   (19, February, 2007),
   (6, February, 2008), (7, February, 2008), (8, February, 2008),
   (25, January, 2009), (26, January, 2009), (27, January, 2009),
   (13, February, 2010), (14, February, 2010), (15, February, 2010),
   (2, February, 2011), (3, February, 2011), (4, February, 2011),
   (23, January, 2012), (24, January, 2012),
   (11, February, 2013)]

open Month in
/-- Election days 2004-2012, as (day, month, year). -/
def electionDays : List (Int × Month × Int) :=
  [(15, April, 2004), (31, May, 2006), (19, December, 2007), (9, April, 2008),
   (2, June, 2010), (11, April, 2012), (19, December, 2012)]

open Month in
/-- Buddha's birthday 2004-2013, as (day, month, year). -/
def buddhaBirthdays : List (Int × Month × Int) :=
  [(26, May, 2004), (15, May, 2005), (5, May, 2006), (24, May, 2007),
   (12, May, 2008), (2, May, 2009), (21, May, 2010), (10, May, 2011),
   (28, May, 2012), (17, May, 2013)]

open Month in
/-- Harvest Moon closings 2004-2013, as (day, month, year). -/
def harvestMoonDates : List (Int × Month × Int) :=
  [(27, September, 2004), (28, September, 2004), (29, September, 2004),
   (17, September, 2005), (18, September, 2005), (19, September, 2005),
   (5, October, 2006), (6, October, 2006), (7, October, 2006),
   (24, September, 2007), (25, September, 2007), (26, September, 2007),
   (13, September, 2008), (14, September, 2008), (15, September, 2008),
   (2, October, 2009), (3, October, 2009), (4, October, 2009),
   (21, September, 2010), (22, September, 2010), (23, September, 2010),
   (12, September, 2011), (13, September, 2011),
   (1, October, 2012),
   (18, September, 2013), (19, September, 2013), (20, September, 2013)]

/-- The (day, month, year) of a date matches one of the listed holiday entries:
a fixed-date holiday, a cutoff-year-bounded holiday in a year up to its cutoff,
or one of the enumerated dates. The weekday plays no part. -/
def matchesHolidayEntry (date : Date) : Bool :=
  fixedDateHolidays.contains (date.dayOfMonth, date.month)
  || cutoffYearHolidays.any
      (fun e => date.dayOfMonth == e.1 && date.month == e.2.1 && decide (date.year ≤ e.2.2))
  || (lunarNewYearDates ++ electionDays ++ buddhaBirthdays ++ harvestMoonDates).contains
      (date.dayOfMonth, date.month, date.year)

open Month in
/-- The ten year-end closing dates of the exchange, 2004-2013, as
(day, month, year). -/
def yearEndClosings : List (Int × Month × Int) :=
  [(31, December, 2004), (30, December, 2005), (29, December, 2006),
   (31, December, 2007), (31, December, 2008), (31, December, 2009),
   (31, December, 2010), (30, December, 2011), (31, December, 2012),
   (31, December, 2013)]

end SouthKorea

/-! ## `analyticbsmhullwhiteengine.hpp`

The header declares the class, its constructor, `calculate` and the data member
`rho_`; the bodies are not among the translated sources. The definitions of this
section are modelled from the specification. Exact rational arithmetic stands
for the specification's `Real`; rounding of machine doubles is outside the
model. -/

/-- Modelled from the spec: the error taxonomy of section 7. -/
inductive EngineError where
  | ConfigurationError
  | InputError
  | UpstreamModelError
  deriving DecidableEq, Repr

/-- Modelled from the spec: the fitted state of the rate model (section 3,
"StochasticRateModel state"), the class `HullWhite` of the header: mean
reversion `a` and volatility `sigma` (the specification's sigma_r). -/
structure HullWhite where
  a : ℚ
  sigma : ℚ
  deriving DecidableEq, Repr

/-- Modelled from the spec: the two integrals the rate model supplies (section
4.1), `Vr a sigma T` for V_r(T) and `C a sigma T` for C(T). The specification
describes them as closed-form functions of `(a, sigma_r, T)` without giving the
expressions, so they are parameters of the model. -/
structure RateIntegrals where
  Vr : ℚ → ℚ → ℚ → ℚ
  C : ℚ → ℚ → ℚ → ℚ

/-- Modelled from the spec: the option type of `OptionSpec`. -/
inductive OptionType where
  | Call
  | Put
  deriving DecidableEq, Repr

/-- Modelled from the spec: `OptionSpec` (section 3) together with the equity
volatility sigma_S that section 2 lists among the option parameters. The curves
do not enter the adjusted variance and are left out. -/
structure OptionSpec where
  strike : ℚ
  maturity : ℚ
  optionType : OptionType
  spot : ℚ
  sigmaS : ℚ
  deriving DecidableEq, Repr

/-- Modelled from the spec: an engine object, the data member `rho_` of the
header and the model it is bound to. Section 3: the correlation is a "Real in
`[-1,1]`; invariant enforced at construction", so an engine object carries the
evidence that its correlation lies in the range. -/
structure AnalyticBSMHullWhiteEngine where
  rho_ : ℚ
  model_ : HullWhite
  rho_in_range : -1 ≤ rho_ ∧ rho_ ≤ 1

/-- Modelled from the spec: the constructor
`AnalyticBSMHullWhiteEngine(equityShortRateCorrelation, model)`, whose body is
not among the translated sources. Sections 4.2 and 7: it "signals a
configuration error if rho is outside `[-1,1]` (checked once, at
construction)". (Named `construct`: inside the namespace of the structure the
class name denotes the type.) -/
def AnalyticBSMHullWhiteEngine.construct
    (equityShortRateCorrelation : ℚ) (model : HullWhite) :
    Except EngineError AnalyticBSMHullWhiteEngine :=
  if h : -1 ≤ equityShortRateCorrelation ∧ equityShortRateCorrelation ≤ 1 then
    Except.ok ⟨equityShortRateCorrelation, model, h⟩
  else
    Except.error EngineError.ConfigurationError

/-- Modelled from the spec: steps 1 to 3 of `calculate` (section 4.2), whose
body is not among the translated sources: read the model's current
`(a, sigma_r)`, take `V_r(T)` and `C(T)` for `T = spec.maturity`, and form
`sigma_S^2 * T + V_r(T) + 2 * rho * sigma_S * C(T)`, "the equity variance, the
rate-induced variance, and the cross covariance term scaled by the correlation,
in that order". -/
def AnalyticBSMHullWhiteEngine.adjustedVariance (engine : AnalyticBSMHullWhiteEngine)
    (integrals : RateIntegrals) (spec : OptionSpec) : ℚ :=
  let a := engine.model_.a
  let sigmaR := engine.model_.sigma
  let T := spec.maturity
  let vr := integrals.Vr a sigmaR T
  let c := integrals.C a sigmaR T
  spec.sigmaS ^ 2 * T + vr + 2 * engine.rho_ * spec.sigmaS * c

/-- Modelled from the spec: `PricingResult` (section 3), of which the value is
kept; the optional sensitivities are left out. -/
structure PricingResult where
  value : ℚ
  deriving DecidableEq, Repr

/-- Modelled from the spec: what `calculate` consumes and the specification
leaves without a formula, taken as parameters: the integrals of the rate model
(section 4.1); the adjusted forward of step 4, a function of the option spec
and of `C(T)` (its formula is the open question of section 9); the discount
factor from the curve; and the standard Black-Scholes closed form of step 5, a
function of option type, forward, strike, variance and discount factor. -/
structure PricingEnvironment where
  integrals : RateIntegrals
  adjustedForward : OptionSpec → ℚ → ℚ
  discountFactor : OptionSpec → ℚ
  blackScholes : OptionType → ℚ → ℚ → ℚ → ℚ → ℚ

/-- Modelled from the spec: the intrinsic value of section 4.2, "edge cases":
`max(spot - strike, 0)` for a call, "symmetric for a put". -/
def intrinsicValue (spec : OptionSpec) : ℚ :=
  match spec.optionType with
  | OptionType.Call => max (spec.spot - spec.strike) 0
  | OptionType.Put => max (spec.strike - spec.spot) 0

/-- Modelled from the spec: `calculate` (section 4.2), whose body is not among
the translated sources.
* Failure conditions: "signals an input error if `strike <= 0`, `spot <= 0`, or
  `maturity < 0`".
* Edge case, sections 3 and 4.2: "engine produces a defined result for
  `maturity == 0` as the intrinsic value (limit case)".
* Otherwise steps 1 to 5: the adjusted variance, the adjusted forward from
  `C(T)`, and the Black-Scholes closed form on (forward, strike, variance,
  discount factor).
The rate model is taken as fitted: the upstream error, which the specification
has the model raise, is not modelled. -/
def AnalyticBSMHullWhiteEngine.calculate (engine : AnalyticBSMHullWhiteEngine)
    (env : PricingEnvironment) (spec : OptionSpec) : Except EngineError PricingResult :=
  if spec.strike ≤ 0 ∨ spec.spot ≤ 0 ∨ spec.maturity < 0 then
    Except.error EngineError.InputError
  else if spec.maturity = 0 then
    Except.ok ⟨intrinsicValue spec⟩
  else
    let T := spec.maturity
    let variance := engine.adjustedVariance env.integrals spec
    let c := env.integrals.C engine.model_.a engine.model_.sigma T
    let F := env.adjustedForward spec c
    Except.ok ⟨env.blackScholes spec.optionType F spec.strike variance (env.discountFactor spec)⟩

/-! ## Theorems: the calendars -/

namespace SouthKorea

/-- A date that is not a settlement business day falls on a weekend or matches
a listed holiday entry. -/
theorem holiday_of_not_businessDay (date : Date)
    (h : SettlementImpl.isBusinessDay date = false) :
    SettlementImpl.isWeekend date.weekday = true ∨ matchesHolidayEntry date = true := by
  obtain ⟨w, d, m, y⟩ := date
  cases hw : SettlementImpl.isWeekend w
  · right
    simp only [SettlementImpl.isBusinessDay, hw, Bool.false_or, Bool.or_eq_true,
      Bool.and_eq_true, beq_iff_eq, decide_eq_true_eq, ite_eq_left_iff, Bool.not_eq_true,
      Bool.true_eq_false, imp_false, Bool.not_eq_false, Bool.or_eq_false_iff,
      Bool.and_eq_false_imp, not_and, not_forall, not_not, Classical.not_imp] at h
    casesm* _ ∨ _, _ ∧ _ <;> subst_vars <;>
      first
        | rfl
        | simp [matchesHolidayEntry, cutoffYearHolidays, fixedDateHolidays, *]
  · left; rfl

/-- A weekend day, and a date matching a listed holiday entry, is not a
settlement business day. -/
theorem not_businessDay_of_holiday (date : Date)
    (h : SettlementImpl.isWeekend date.weekday = true ∨ matchesHolidayEntry date = true) :
    SettlementImpl.isBusinessDay date = false := by
  obtain ⟨w, d, m, y⟩ := date
  rcases h with h | h
  · simp only [] at h
    simp [SettlementImpl.isBusinessDay, h]
  · simp only [matchesHolidayEntry, fixedDateHolidays, cutoffYearHolidays, lunarNewYearDates,
      electionDays, buddhaBirthdays, harvestMoonDates, List.cons_append, List.nil_append,
      List.contains_cons, List.contains_nil, List.any_cons, List.any_nil, Bool.or_false,
      Bool.or_eq_true, Bool.and_eq_true, beq_iff_eq, decide_eq_true_eq, Prod.mk.injEq] at h
    casesm* _ ∨ _, _ ∧ _ <;> subst_vars <;>
      first
        | (cases w <;> rfl)
        | simp [SettlementImpl.isBusinessDay, *]

/-- The weekend test is true exactly on Saturday and Sunday. -/
theorem isWeekend_iff (w : Weekday) :
    SettlementImpl.isWeekend w = true ↔ w = Weekday.Saturday ∨ w = Weekday.Sunday := by
  cases w <;> simp [SettlementImpl.isWeekend]

/-- An exchange business day is a settlement business day. -/
theorem settlement_of_krx (date : Date) (h : KrxImpl.isBusinessDay date = true) :
    SettlementImpl.isBusinessDay date = true := by
  unfold KrxImpl.isBusinessDay at h
  cases hs : SettlementImpl.isBusinessDay date with
  | true => rfl
  | false => simp [hs] at h

/-- C1. For every date whose weekday is Saturday or Sunday, whatever its day of
month, month and year, `SettlementImpl::isBusinessDay` returns false. -/
theorem settlement_weekend_is_holiday (date : Date)
    (h : date.weekday = Weekday.Saturday ∨ date.weekday = Weekday.Sunday) :
    SettlementImpl.isBusinessDay date = false :=
  not_businessDay_of_holiday date (Or.inl ((isWeekend_iff date.weekday).mpr h))

/-- C1 at Saturday 3 January 2004 and at Sunday 4 January 2004. -/
theorem settlement_weekend_is_holiday_witness :
    SettlementImpl.isBusinessDay ⟨Weekday.Saturday, 3, Month.January, 2004⟩ = false ∧
    SettlementImpl.isBusinessDay ⟨Weekday.Sunday, 4, Month.January, 2004⟩ = false :=
  ⟨settlement_weekend_is_holiday ⟨Weekday.Saturday, 3, Month.January, 2004⟩ (Or.inl rfl),
   settlement_weekend_is_holiday ⟨Weekday.Sunday, 4, Month.January, 2004⟩ (Or.inr rfl)⟩

/-- C2. For every year and every weekday, `SettlementImpl::isBusinessDay` returns
false on 1 January and on 1 March of that year; in particular on Thursday
2004-01-01 and on Monday 2004-03-01. -/
theorem settlement_newYear_independenceDay_closed :
    (∀ (y : Int) (w : Weekday),
      SettlementImpl.isBusinessDay ⟨w, 1, Month.January, y⟩ = false ∧
      SettlementImpl.isBusinessDay ⟨w, 1, Month.March, y⟩ = false) ∧
    SettlementImpl.isBusinessDay ⟨Weekday.Thursday, 1, Month.January, 2004⟩ = false ∧
    SettlementImpl.isBusinessDay ⟨Weekday.Monday, 1, Month.March, 2004⟩ = false := by
  have key : ∀ (y : Int) (w : Weekday),
      SettlementImpl.isBusinessDay ⟨w, 1, Month.January, y⟩ = false ∧
      SettlementImpl.isBusinessDay ⟨w, 1, Month.March, y⟩ = false := by
    intro y w
    constructor <;> simp [SettlementImpl.isBusinessDay]
  exact ⟨key, (key 2004 Weekday.Thursday).1, (key 2004 Weekday.Monday).2⟩

/-- C3. A date whose weekday is Monday to Friday and whose (day, month, year)
matches none of the listed holiday entries is a settlement business day; in
particular Friday 2004-01-02 is one. -/
theorem settlement_unlisted_weekday_is_businessDay :
    (∀ date : Date,
      date.weekday ∈ [Weekday.Monday, Weekday.Tuesday, Weekday.Wednesday,
        Weekday.Thursday, Weekday.Friday] →
      matchesHolidayEntry date = false →
      SettlementImpl.isBusinessDay date = true) ∧
    SettlementImpl.isBusinessDay ⟨Weekday.Friday, 2, Month.January, 2004⟩ = true := by
  have key : ∀ date : Date,
      date.weekday ∈ [Weekday.Monday, Weekday.Tuesday, Weekday.Wednesday,
        Weekday.Thursday, Weekday.Friday] →
      matchesHolidayEntry date = false →
      SettlementImpl.isBusinessDay date = true := by
    intro date hw hm
    cases hb : SettlementImpl.isBusinessDay date with
    | true => rfl
    | false =>
      rcases holiday_of_not_businessDay date hb with h | h
      · rw [isWeekend_iff] at h
        rcases h with h | h <;> rw [h] at hw <;> simp at hw
      · rw [hm] at h
        exact absurd h (by decide)
  exact ⟨key, key ⟨Weekday.Friday, 2, Month.January, 2004⟩ (by decide) (by decide)⟩

/-- C3 at Wednesday 7 January 2004: a weekday, no listed entry, a business day. -/
theorem settlement_unlisted_weekday_is_businessDay_witness :
    (⟨Weekday.Wednesday, 7, Month.January, 2004⟩ : Date).weekday ∈
        [Weekday.Monday, Weekday.Tuesday, Weekday.Wednesday, Weekday.Thursday, Weekday.Friday] ∧
    matchesHolidayEntry ⟨Weekday.Wednesday, 7, Month.January, 2004⟩ = false ∧
    SettlementImpl.isBusinessDay ⟨Weekday.Wednesday, 7, Month.January, 2004⟩ = true :=
  ⟨by decide, by decide,
   settlement_unlisted_weekday_is_businessDay.1 ⟨Weekday.Wednesday, 7, Month.January, 2004⟩
     (by decide) (by decide)⟩

/-- C4. The exchange calendar is layered on the settlement calendar: a date on
which `KrxImpl::isBusinessDay` returns true is one on which
`SettlementImpl::isBusinessDay` returns true; equivalently every settlement
holiday, every weekend day included, is an exchange holiday. -/
theorem krx_businessDay_implies_settlement_businessDay (date : Date) :
    (KrxImpl.isBusinessDay date = true → SettlementImpl.isBusinessDay date = true) ∧
    (SettlementImpl.isBusinessDay date = false → KrxImpl.isBusinessDay date = false) ∧
    (SettlementImpl.isWeekend date.weekday = true → KrxImpl.isBusinessDay date = false) := by
  have h2 : SettlementImpl.isBusinessDay date = false → KrxImpl.isBusinessDay date = false := by
    intro hs
    cases hk : KrxImpl.isBusinessDay date with
    | false => rfl
    | true => rw [settlement_of_krx date hk] at hs; exact absurd hs (by decide)
  exact ⟨settlement_of_krx date, h2,
    fun hw => h2 (not_businessDay_of_holiday date (Or.inl hw))⟩

/-- C4 at Friday 2004-01-02, a business day of both calendars, and at Saturday
2004-01-03, a holiday of both. -/
theorem krx_businessDay_implies_settlement_businessDay_witness :
    KrxImpl.isBusinessDay ⟨Weekday.Friday, 2, Month.January, 2004⟩ = true ∧
    SettlementImpl.isBusinessDay ⟨Weekday.Friday, 2, Month.January, 2004⟩ = true ∧
    KrxImpl.isBusinessDay ⟨Weekday.Saturday, 3, Month.January, 2004⟩ = false :=
  ⟨by decide,
   (krx_businessDay_implies_settlement_businessDay
      ⟨Weekday.Friday, 2, Month.January, 2004⟩).1 (by decide),
   (krx_businessDay_implies_settlement_businessDay
      ⟨Weekday.Saturday, 3, Month.January, 2004⟩).2.2 (by decide)⟩

/-- C6. The market selects the implementation once, at construction: market
`Settlement` yields a calendar whose implementation runs the `SettlementImpl`
rule, market `KRX` one whose implementation runs the `KrxImpl` rule, and
construction fails with "unknown market" exactly when the market is neither, so
that it succeeds for the two enumerated markets. -/
theorem southKorea_selects_market :
    (∃ c : Calendar, SouthKorea Settlement = Except.ok c ∧
      ∀ date, c.impl_.isBusinessDay date = SettlementImpl.isBusinessDay date) ∧
    (∃ c : Calendar, SouthKorea KRX = Except.ok c ∧
      ∀ date, c.impl_.isBusinessDay date = KrxImpl.isBusinessDay date) ∧
    (∀ market : Market, SouthKorea market = Except.error "unknown market" ↔
      (market ≠ Settlement ∧ market ≠ KRX)) ∧
    (∀ market : Market, (market = Settlement ∨ market = KRX) →
      ∃ c : Calendar, SouthKorea market = Except.ok c) := by
  refine ⟨⟨⟨Impl.settlementImpl⟩, rfl, fun _ => rfl⟩, ⟨⟨Impl.krxImpl⟩, rfl, fun _ => rfl⟩, ?_, ?_⟩
  · intro market
    have hne : KRX ≠ Settlement := by decide
    by_cases h1 : market = Settlement
    · subst h1
      simp [SouthKorea]
    · by_cases h2 : market = KRX
      · subst h2
        simp [SouthKorea, hne]
      · simp [SouthKorea, h1, h2]
  · rintro market (h | h)
    · exact ⟨⟨Impl.settlementImpl⟩, by rw [h]; rfl⟩
    · exact ⟨⟨Impl.krxImpl⟩, by rw [h]; rfl⟩

/-- C6 at the market value 2, which is neither enumerator: construction fails;
and at `KRX`: it succeeds. -/
theorem southKorea_selects_market_witness :
    SouthKorea 2 = Except.error "unknown market" ∧
    (∃ c : Calendar, SouthKorea KRX = Except.ok c) :=
  ⟨(southKorea_selects_market.2.2.1 2).mpr ⟨by decide, by decide⟩,
   southKorea_selects_market.2.2.2 KRX (Or.inr rfl)⟩

/-- The weekday rule at known days: Thursday 1 January 1970, Tuesday 29 February
2000, Thursday 1 January 2004, Friday 2 January 2004, Monday 1 March 2004. -/
theorem weekdayOf_known_days :
    weekdayOf 1970 Month.January 1 = Weekday.Thursday ∧
    weekdayOf 2000 Month.February 29 = Weekday.Tuesday ∧
    weekdayOf 2004 Month.January 1 = Weekday.Thursday ∧
    weekdayOf 2004 Month.January 2 = Weekday.Friday ∧
    weekdayOf 2004 Month.March 1 = Weekday.Monday := by
  decide

/-- On a settlement business day, the exchange is closed exactly when the
(day, month, year) is a year-end closing. -/
theorem krx_closed_iff_year_end (date : Date)
    (hs : SettlementImpl.isBusinessDay date = true) :
    KrxImpl.isBusinessDay date = false ↔
      (date.dayOfMonth, date.month, date.year) ∈ yearEndClosings := by
  obtain ⟨w, d, m, y⟩ := date
  constructor
  · intro h
    simp only [KrxImpl.isBusinessDay, hs, Bool.not_true, Bool.false_eq_true, if_false,
      Bool.or_eq_true, Bool.and_eq_true, beq_iff_eq, ite_eq_left_iff, Bool.not_eq_true,
      Bool.true_eq_false, imp_false, Bool.not_eq_false, Bool.or_eq_false_iff,
      Bool.and_eq_false_imp, not_and, not_forall, not_not, Classical.not_imp] at h
    casesm* _ ∨ _, _ ∧ _ <;> subst_vars <;> (dsimp only; decide)
  · intro h
    simp only [yearEndClosings, List.mem_cons, List.mem_singleton, Prod.mk.injEq,
      List.not_mem_nil, or_false] at h
    casesm* _ ∨ _, _ ∧ _ <;> subst_vars <;>
      (unfold KrxImpl.isBusinessDay; rw [hs]; rfl)

/-- The two implementations differ exactly on the settlement business days
whose (day, month, year) is a year-end closing. -/
theorem krx_ne_settlement_iff (date : Date) :
    KrxImpl.isBusinessDay date ≠ SettlementImpl.isBusinessDay date ↔
      SettlementImpl.isBusinessDay date = true ∧
      (date.dayOfMonth, date.month, date.year) ∈ yearEndClosings := by
  cases hs : SettlementImpl.isBusinessDay date
  · have hk : KrxImpl.isBusinessDay date = false := by
      unfold KrxImpl.isBusinessDay
      rw [hs]
      rfl
    rw [hk]
    exact ⟨fun h => absurd rfl h, fun h => absurd h.1 (by decide)⟩
  · rw [← krx_closed_iff_year_end date hs]
    cases KrxImpl.isBusinessDay date <;> decide

/-- C11. Over the valid Gregorian dates taken with their true weekday, the two
implementations return different results exactly on the ten year-end closing
dates 2004-12-31, 2005-12-30, 2006-12-29, 2007-12-31, 2008-12-31, 2009-12-31,
2010-12-31, 2011-12-30, 2012-12-31 and 2013-12-31; each of the ten is a valid
date, a settlement business day and an exchange holiday. -/
theorem krx_differs_from_settlement_on_year_end_closings :
    (∀ date : Date, date.isGregorian = true →
      (KrxImpl.isBusinessDay date ≠ SettlementImpl.isBusinessDay date ↔
        (date.dayOfMonth, date.month, date.year) ∈ yearEndClosings)) ∧
    (∀ e ∈ yearEndClosings,
      Date.isGregorian ⟨weekdayOf e.2.2 e.2.1 e.1, e.1, e.2.1, e.2.2⟩ = true ∧
      SettlementImpl.isBusinessDay ⟨weekdayOf e.2.2 e.2.1 e.1, e.1, e.2.1, e.2.2⟩ = true ∧
      KrxImpl.isBusinessDay ⟨weekdayOf e.2.2 e.2.1 e.1, e.1, e.2.1, e.2.2⟩ = false) := by
  have closings : ∀ e ∈ yearEndClosings,
      Date.isGregorian ⟨weekdayOf e.2.2 e.2.1 e.1, e.1, e.2.1, e.2.2⟩ = true ∧
      SettlementImpl.isBusinessDay ⟨weekdayOf e.2.2 e.2.1 e.1, e.1, e.2.1, e.2.2⟩ = true ∧
      KrxImpl.isBusinessDay ⟨weekdayOf e.2.2 e.2.1 e.1, e.1, e.2.1, e.2.2⟩ = false := by
    decide
  refine ⟨fun date hvalid => ?_, closings⟩
  rw [krx_ne_settlement_iff]
  refine ⟨fun h => h.2, fun hmem => ⟨?_, hmem⟩⟩
  have hw : date.weekday = weekdayOf date.year date.month date.dayOfMonth := by
    simp only [Date.isGregorian, Bool.and_eq_true, beq_iff_eq] at hvalid
    exact hvalid.2
  have hb := (closings _ hmem).2.1
  obtain ⟨w, d, m, y⟩ := date
  simp only at hw hb
  rw [hw]
  exact hb

/-- C11 at Friday 31 December 2004, where the two differ, and at Thursday 30
December 2004, where they agree. -/
theorem krx_differs_from_settlement_on_year_end_closings_witness :
    Date.isGregorian ⟨Weekday.Friday, 31, Month.December, 2004⟩ = true ∧
    KrxImpl.isBusinessDay ⟨Weekday.Friday, 31, Month.December, 2004⟩
      ≠ SettlementImpl.isBusinessDay ⟨Weekday.Friday, 31, Month.December, 2004⟩ ∧
    Date.isGregorian ⟨Weekday.Thursday, 30, Month.December, 2004⟩ = true ∧
    ¬ KrxImpl.isBusinessDay ⟨Weekday.Thursday, 30, Month.December, 2004⟩
      ≠ SettlementImpl.isBusinessDay ⟨Weekday.Thursday, 30, Month.December, 2004⟩ :=
  ⟨by decide,
   (krx_differs_from_settlement_on_year_end_closings.1
      ⟨Weekday.Friday, 31, Month.December, 2004⟩ (by decide)).mpr (by decide),
   by decide,
   fun h => absurd ((krx_differs_from_settlement_on_year_end_closings.1
      ⟨Weekday.Thursday, 30, Month.December, 2004⟩ (by decide)).mp h) (by decide)⟩

/-- C12. Arbour Day is bounded by the cutoff year 2005: for every year up to
2005 `SettlementImpl::isBusinessDay` returns false on 5 April whatever the
weekday; for every year from 2006 on it returns true on 5 April exactly when
the weekday is neither Saturday nor Sunday. -/
theorem settlement_arbourDay_until_2005 (y : Int) (w : Weekday) :
    (y ≤ 2005 → SettlementImpl.isBusinessDay ⟨w, 5, Month.April, y⟩ = false) ∧
    (2006 ≤ y → (SettlementImpl.isBusinessDay ⟨w, 5, Month.April, y⟩ = true ↔
      w ≠ Weekday.Saturday ∧ w ≠ Weekday.Sunday)) := by
  constructor
  · intro h
    simp [SettlementImpl.isBusinessDay, h]
  · intro h
    have h' : ¬ y ≤ 2005 := by omega
    cases w <;> simp [SettlementImpl.isBusinessDay, SettlementImpl.isWeekend, h']

/-- C12 at 5 April 2005, a Tuesday and a holiday, and at 5 April 2006, a
Wednesday and a business day. -/
theorem settlement_arbourDay_until_2005_witness :
    SettlementImpl.isBusinessDay ⟨Weekday.Tuesday, 5, Month.April, 2005⟩ = false ∧
    SettlementImpl.isBusinessDay ⟨Weekday.Wednesday, 5, Month.April, 2006⟩ = true :=
  ⟨(settlement_arbourDay_until_2005 2005 Weekday.Tuesday).1 (by decide),
   ((settlement_arbourDay_until_2005 2006 Weekday.Wednesday).2 (by decide)).mpr
     ⟨by decide, by decide⟩⟩

/-- C13. Constitution Day is bounded by the cutoff year 2007: for every year up
to 2007 `SettlementImpl::isBusinessDay` returns false on 17 July whatever the
weekday; for every year from 2008 on it returns true on 17 July exactly when
the weekday is neither Saturday nor Sunday. -/
theorem settlement_constitutionDay_until_2007 (y : Int) (w : Weekday) :
    (y ≤ 2007 → SettlementImpl.isBusinessDay ⟨w, 17, Month.July, y⟩ = false) ∧
    (2008 ≤ y → (SettlementImpl.isBusinessDay ⟨w, 17, Month.July, y⟩ = true ↔
      w ≠ Weekday.Saturday ∧ w ≠ Weekday.Sunday)) := by
  constructor
  · intro h
    simp [SettlementImpl.isBusinessDay, h]
  · intro h
    have h' : ¬ y ≤ 2007 := by omega
    cases w <;> simp [SettlementImpl.isBusinessDay, SettlementImpl.isWeekend, h']

/-- C13 at 17 July 2007, a Tuesday and a holiday, and at 17 July 2008, a
Thursday and a business day. -/
theorem settlement_constitutionDay_until_2007_witness :
    SettlementImpl.isBusinessDay ⟨Weekday.Tuesday, 17, Month.July, 2007⟩ = false ∧
    SettlementImpl.isBusinessDay ⟨Weekday.Thursday, 17, Month.July, 2008⟩ = true :=
  ⟨(settlement_constitutionDay_until_2007 2007 Weekday.Tuesday).1 (by decide),
   ((settlement_constitutionDay_until_2007 2008 Weekday.Thursday).2 (by decide)).mpr
     ⟨by decide, by decide⟩⟩

/-- On a settlement holiday the exchange is closed. -/
theorem krx_closed_of_settlement_closed (date : Date)
    (hs : SettlementImpl.isBusinessDay date = false) :
    KrxImpl.isBusinessDay date = false := by
  unfold KrxImpl.isBusinessDay
  rw [hs]
  rfl

/-- C14. The fixed-date national holidays hold in every year on both calendars:
for every year and every weekday, `SettlementImpl::isBusinessDay` and
`KrxImpl::isBusinessDay` both return false on 1 May (Labour Day), 5 May
(Children's Day), 6 June (Memorial Day), 15 August (Liberation Day), 3 October
(National Foundation Day) and 25 December (Christmas Day). -/
theorem fixed_date_holidays_closed_on_both_calendars (y : Int) (w : Weekday) :
    (SettlementImpl.isBusinessDay ⟨w, 1, Month.May, y⟩ = false ∧
      KrxImpl.isBusinessDay ⟨w, 1, Month.May, y⟩ = false) ∧
    (SettlementImpl.isBusinessDay ⟨w, 5, Month.May, y⟩ = false ∧
      KrxImpl.isBusinessDay ⟨w, 5, Month.May, y⟩ = false) ∧
    (SettlementImpl.isBusinessDay ⟨w, 6, Month.June, y⟩ = false ∧
      KrxImpl.isBusinessDay ⟨w, 6, Month.June, y⟩ = false) ∧
    (SettlementImpl.isBusinessDay ⟨w, 15, Month.August, y⟩ = false ∧
      KrxImpl.isBusinessDay ⟨w, 15, Month.August, y⟩ = false) ∧
    (SettlementImpl.isBusinessDay ⟨w, 3, Month.October, y⟩ = false ∧
      KrxImpl.isBusinessDay ⟨w, 3, Month.October, y⟩ = false) ∧
    (SettlementImpl.isBusinessDay ⟨w, 25, Month.December, y⟩ = false ∧
      KrxImpl.isBusinessDay ⟨w, 25, Month.December, y⟩ = false) := by
  have both : ∀ date : Date, SettlementImpl.isBusinessDay date = false →
      SettlementImpl.isBusinessDay date = false ∧ KrxImpl.isBusinessDay date = false :=
    fun date hs => ⟨hs, krx_closed_of_settlement_closed date hs⟩
  refine ⟨both _ ?_, both _ ?_, both _ ?_, both _ ?_, both _ ?_, both _ ?_⟩ <;>
    simp [SettlementImpl.isBusinessDay]

/-- Every year-end closing of the exchange lies in the years 2004 to 2013. -/
theorem yearEndClosings_in_2004_2013 :
    ∀ e ∈ yearEndClosings, 2004 ≤ e.2.2 ∧ e.2.2 ≤ 2013 := by
  decide

/-- Outside the years 2004 to 2013 a date that matches a listed holiday entry
matches a fixed-date holiday or a cutoff-year-bounded one. -/
theorem fixed_rule_of_matchesHolidayEntry (w : Weekday) (d : Int) (m : Month) (y : Int)
    (hy : y < 2004 ∨ 2013 < y) (h : matchesHolidayEntry ⟨w, d, m, y⟩ = true) :
    (d = 1 ∧ m = Month.January) ∨ (d = 1 ∧ m = Month.March) ∨ (d = 1 ∧ m = Month.May)
      ∨ (d = 5 ∧ m = Month.May) ∨ (d = 6 ∧ m = Month.June) ∨ (d = 15 ∧ m = Month.August)
      ∨ (d = 3 ∧ m = Month.October) ∨ (d = 25 ∧ m = Month.December)
      ∨ (d = 5 ∧ m = Month.April ∧ y ≤ 2005) ∨ (d = 17 ∧ m = Month.July ∧ y ≤ 2007) := by
  simp only [matchesHolidayEntry, fixedDateHolidays, cutoffYearHolidays, lunarNewYearDates,
    electionDays, buddhaBirthdays, harvestMoonDates, List.cons_append, List.nil_append,
    List.contains_cons, List.contains_nil, List.any_cons, List.any_nil, Bool.or_false,
    Bool.or_eq_true, Bool.and_eq_true, beq_iff_eq, decide_eq_true_eq, Prod.mk.injEq] at h
  revert hy
  casesm* _ ∨ _, _ ∧ _ <;> subst_vars <;> intro hy <;>
    first
      | exact absurd hy (by decide)
      | simp [*]

/-- A date on a fixed-date holiday, or on a cutoff-year-bounded holiday in a
year up to its cutoff, matches a listed holiday entry. -/
theorem matchesHolidayEntry_of_fixed_rule (w : Weekday) (d : Int) (m : Month) (y : Int)
    (h : (d = 1 ∧ m = Month.January) ∨ (d = 1 ∧ m = Month.March) ∨ (d = 1 ∧ m = Month.May)
      ∨ (d = 5 ∧ m = Month.May) ∨ (d = 6 ∧ m = Month.June) ∨ (d = 15 ∧ m = Month.August)
      ∨ (d = 3 ∧ m = Month.October) ∨ (d = 25 ∧ m = Month.December)
      ∨ (d = 5 ∧ m = Month.April ∧ y ≤ 2005) ∨ (d = 17 ∧ m = Month.July ∧ y ≤ 2007)) :
    matchesHolidayEntry ⟨w, d, m, y⟩ = true := by
  casesm* _ ∨ _, _ ∧ _ <;> subst_vars <;>
    first
      | rfl
      | simp [matchesHolidayEntry, cutoffYearHolidays, fixedDateHolidays, *]

/-- C15. The enumerated one-off entries touch the years 2004 to 2013 only: for
a date with year before 2004 or after 2013, `SettlementImpl::isBusinessDay`
returns false exactly when the weekday is Saturday or Sunday, or the
(day, month) is 1 January, 1 March, 1 May, 5 May, 6 June, 15 August, 3 October
or 25 December, or it is 5 April with year up to 2005, or 17 July with year up
to 2007; and `KrxImpl::isBusinessDay` returns the same result. -/
theorem outside_2004_2013_only_fixed_rules (date : Date)
    (hy : date.year < 2004 ∨ 2013 < date.year) :
    (SettlementImpl.isBusinessDay date = false ↔
      ((date.weekday = Weekday.Saturday ∨ date.weekday = Weekday.Sunday)
        ∨ (date.dayOfMonth = 1 ∧ date.month = Month.January)
        ∨ (date.dayOfMonth = 1 ∧ date.month = Month.March)
        ∨ (date.dayOfMonth = 1 ∧ date.month = Month.May)
        ∨ (date.dayOfMonth = 5 ∧ date.month = Month.May)
        ∨ (date.dayOfMonth = 6 ∧ date.month = Month.June)
        ∨ (date.dayOfMonth = 15 ∧ date.month = Month.August)
        ∨ (date.dayOfMonth = 3 ∧ date.month = Month.October)
        ∨ (date.dayOfMonth = 25 ∧ date.month = Month.December)
        ∨ (date.dayOfMonth = 5 ∧ date.month = Month.April ∧ date.year ≤ 2005)
        ∨ (date.dayOfMonth = 17 ∧ date.month = Month.July ∧ date.year ≤ 2007))) ∧
    KrxImpl.isBusinessDay date = SettlementImpl.isBusinessDay date := by
  obtain ⟨w, d, m, y⟩ := date
  refine ⟨⟨fun hb => ?_, fun h => ?_⟩, ?_⟩
  · rcases holiday_of_not_businessDay _ hb with h | h
    · exact Or.inl ((isWeekend_iff w).mp h)
    · exact Or.inr (fixed_rule_of_matchesHolidayEntry w d m y hy h)
  · rcases h with h | h
    · exact not_businessDay_of_holiday _ (Or.inl ((isWeekend_iff w).mpr h))
    · exact not_businessDay_of_holiday _ (Or.inr (matchesHolidayEntry_of_fixed_rule w d m y h))
  · by_contra hne
    have hmem := ((krx_ne_settlement_iff _).mp hne).2
    have hrange := yearEndClosings_in_2004_2013 _ hmem
    simp only at hrange hy
    omega

/-- C15 at Saturday 1 January 2000, a holiday, and at Friday 31 January 2014, a
Lunar New Year closing that the source does not list: a business day of both
calendars. -/
theorem outside_2004_2013_only_fixed_rules_witness :
    SettlementImpl.isBusinessDay ⟨Weekday.Saturday, 1, Month.January, 2000⟩ = false ∧
    KrxImpl.isBusinessDay ⟨Weekday.Friday, 31, Month.January, 2014⟩
      = SettlementImpl.isBusinessDay ⟨Weekday.Friday, 31, Month.January, 2014⟩ ∧
    SettlementImpl.isBusinessDay ⟨Weekday.Friday, 31, Month.January, 2014⟩ = true :=
  ⟨(outside_2004_2013_only_fixed_rules ⟨Weekday.Saturday, 1, Month.January, 2000⟩
      (Or.inl (by decide))).1.mpr (Or.inl (Or.inl rfl)),
   (outside_2004_2013_only_fixed_rules ⟨Weekday.Friday, 31, Month.January, 2014⟩
      (Or.inr (by decide))).2,
   by decide⟩

end SouthKorea

/-! ## Theorems: the engine -/

/-- Construction succeeds for a correlation in `[-1, 1]` and keeps the
correlation and the model. -/
theorem construct_ok_of_in_range (rho : ℚ) (model : HullWhite)
    (h : -1 ≤ rho ∧ rho ≤ 1) :
    AnalyticBSMHullWhiteEngine.construct rho model = Except.ok ⟨rho, model, h⟩ := by
  simp [AnalyticBSMHullWhiteEngine.construct, h]

/-- An engine obtained from the constructor carries the arguments it was
constructed with. -/
theorem fields_of_construct_ok (rho : ℚ) (model : HullWhite)
    (engine : AnalyticBSMHullWhiteEngine)
    (h : AnalyticBSMHullWhiteEngine.construct rho model = Except.ok engine) :
    engine.rho_ = rho ∧ engine.model_ = model := by
  unfold AnalyticBSMHullWhiteEngine.construct at h
  split at h
  · cases h
    exact ⟨rfl, rfl⟩
  · cases h

/-- C7. For a fixed rate model and option spec, the adjusted total variance of
an engine constructed with correlation rho is
`sigma_S^2 * T + V_r(T) + 2 * rho * sigma_S * C(T)`; it is affine in rho; and
for every rho in `[-1, 1]` the engines constructed with rho and with -rho exist
and their adjusted variances add up to `2 * (sigma_S^2 * T + V_r(T))`. -/
theorem adjustedVariance_affine_in_correlation (integrals : RateIntegrals)
    (model : HullWhite) (spec : OptionSpec) :
    (∀ (rho : ℚ) (engine : AnalyticBSMHullWhiteEngine),
      AnalyticBSMHullWhiteEngine.construct rho model = Except.ok engine →
      engine.adjustedVariance integrals spec
        = spec.sigmaS ^ 2 * spec.maturity + integrals.Vr model.a model.sigma spec.maturity
          + 2 * rho * spec.sigmaS * integrals.C model.a model.sigma spec.maturity) ∧
    (∃ c0 c1 : ℚ, ∀ (rho : ℚ) (engine : AnalyticBSMHullWhiteEngine),
      AnalyticBSMHullWhiteEngine.construct rho model = Except.ok engine →
      engine.adjustedVariance integrals spec = c0 + c1 * rho) ∧
    (∀ rho : ℚ, -1 ≤ rho → rho ≤ 1 →
      ∃ plus minus : AnalyticBSMHullWhiteEngine,
        AnalyticBSMHullWhiteEngine.construct rho model = Except.ok plus ∧
        AnalyticBSMHullWhiteEngine.construct (-rho) model = Except.ok minus ∧
        plus.adjustedVariance integrals spec + minus.adjustedVariance integrals spec
          = 2 * (spec.sigmaS ^ 2 * spec.maturity
                  + integrals.Vr model.a model.sigma spec.maturity)) := by
  have formula : ∀ (rho : ℚ) (engine : AnalyticBSMHullWhiteEngine),
      AnalyticBSMHullWhiteEngine.construct rho model = Except.ok engine →
      engine.adjustedVariance integrals spec
        = spec.sigmaS ^ 2 * spec.maturity + integrals.Vr model.a model.sigma spec.maturity
          + 2 * rho * spec.sigmaS * integrals.C model.a model.sigma spec.maturity := by
    intro rho engine h
    obtain ⟨hr, hm⟩ := fields_of_construct_ok rho model engine h
    simp only [AnalyticBSMHullWhiteEngine.adjustedVariance, hr, hm]
  refine ⟨formula, ?_, ?_⟩
  · refine ⟨spec.sigmaS ^ 2 * spec.maturity + integrals.Vr model.a model.sigma spec.maturity,
      2 * spec.sigmaS * integrals.C model.a model.sigma spec.maturity, ?_⟩
    intro rho engine h
    rw [formula rho engine h]
    ring
  · intro rho h1 h2
    have hp : -1 ≤ rho ∧ rho ≤ 1 := ⟨h1, h2⟩
    have hn : -1 ≤ -rho ∧ -rho ≤ 1 := ⟨by linarith, by linarith⟩
    refine ⟨⟨rho, model, hp⟩, ⟨-rho, model, hn⟩,
      construct_ok_of_in_range rho model hp, construct_ok_of_in_range (-rho) model hn, ?_⟩
    rw [formula rho _ (construct_ok_of_in_range rho model hp),
      formula (-rho) _ (construct_ok_of_in_range (-rho) model hn)]
    ring

/-- C7 at `a = 1/10`, `sigma_r = 1/100`, `sigma_S = 1/5`, `T = 1`, with the
integrals `V_r = sigma_r^2 * T` and `C = sigma_r * T` and `rho = 1/2`: the two
variances exist and add up to `2 * (1/25 + 1/10000)`. -/
theorem adjustedVariance_affine_in_correlation_witness :
    ∃ plus minus : AnalyticBSMHullWhiteEngine,
      AnalyticBSMHullWhiteEngine.construct (1 / 2) ⟨1 / 10, 1 / 100⟩ = Except.ok plus ∧
      AnalyticBSMHullWhiteEngine.construct (-(1 / 2)) ⟨1 / 10, 1 / 100⟩ = Except.ok minus ∧
      plus.adjustedVariance ⟨fun _ s t => s ^ 2 * t, fun _ s t => s * t⟩
          ⟨100, 1, OptionType.Call, 100, 1 / 5⟩
        + minus.adjustedVariance ⟨fun _ s t => s ^ 2 * t, fun _ s t => s * t⟩
          ⟨100, 1, OptionType.Call, 100, 1 / 5⟩
        = 2 * ((1 / 5 : ℚ) ^ 2 * 1 + (1 / 100) ^ 2 * 1) :=
  (adjustedVariance_affine_in_correlation ⟨fun _ s t => s ^ 2 * t, fun _ s t => s * t⟩
    ⟨1 / 10, 1 / 100⟩ ⟨100, 1, OptionType.Call, 100, 1 / 5⟩).2.2 (1 / 2)
    (by norm_num) (by norm_num)

/-- C8. For every valid option spec (positive strike, positive spot) with
maturity 0, `calculate` returns exactly `max(spot - strike, 0)` for a call and
`max(strike - spot, 0)` for a put, for every engine, that is whatever the
correlation and the parameters of the rate model, and whatever the integrals,
the forward, the discount factor and the Black-Scholes evaluator. -/
theorem calculate_zero_maturity_intrinsic (engine : AnalyticBSMHullWhiteEngine)
    (env : PricingEnvironment) (spec : OptionSpec)
    (hstrike : 0 < spec.strike) (hspot : 0 < spec.spot) (hT : spec.maturity = 0) :
    (spec.optionType = OptionType.Call →
      engine.calculate env spec = Except.ok ⟨max (spec.spot - spec.strike) 0⟩) ∧
    (spec.optionType = OptionType.Put →
      engine.calculate env spec = Except.ok ⟨max (spec.strike - spec.spot) 0⟩) := by
  have hvalid : ¬(spec.strike ≤ 0 ∨ spec.spot ≤ 0 ∨ spec.maturity < 0) := by
    rintro (h | h | h)
    · exact absurd hstrike (not_lt.mpr h)
    · exact absurd hspot (not_lt.mpr h)
    · rw [hT] at h
      exact absurd h (lt_irrefl 0)
  have hcalc : engine.calculate env spec = Except.ok ⟨intrinsicValue spec⟩ := by
    unfold AnalyticBSMHullWhiteEngine.calculate
    rw [if_neg hvalid, if_pos hT]
  constructor
  · intro hc
    rw [hcalc]
    simp only [intrinsicValue, hc]
  · intro hp
    rw [hcalc]
    simp only [intrinsicValue, hp]

/-- C8 at spot 100, strike 90, maturity 0: a call returns 10 and a put returns
0, here with `rho = 1/2`, `a = 1/10`, `sigma_r = 1/100`. -/
theorem calculate_zero_maturity_intrinsic_witness :
    (⟨1 / 2, ⟨1 / 10, 1 / 100⟩, by norm_num⟩ : AnalyticBSMHullWhiteEngine).calculate
        ⟨⟨fun _ s t => s ^ 2 * t, fun _ s t => s * t⟩, fun sp _ => sp.spot, fun _ => 1,
          fun _ f _ _ _ => f⟩
        ⟨90, 0, OptionType.Call, 100, 1 / 5⟩
      = Except.ok ⟨max (100 - 90) 0⟩ ∧
    (⟨1 / 2, ⟨1 / 10, 1 / 100⟩, by norm_num⟩ : AnalyticBSMHullWhiteEngine).calculate
        ⟨⟨fun _ s t => s ^ 2 * t, fun _ s t => s * t⟩, fun sp _ => sp.spot, fun _ => 1,
          fun _ f _ _ _ => f⟩
        ⟨90, 0, OptionType.Put, 100, 1 / 5⟩
      = Except.ok ⟨max (90 - 100) 0⟩ :=
  ⟨(calculate_zero_maturity_intrinsic ⟨1 / 2, ⟨1 / 10, 1 / 100⟩, by norm_num⟩
      ⟨⟨fun _ s t => s ^ 2 * t, fun _ s t => s * t⟩, fun sp _ => sp.spot, fun _ => 1,
        fun _ f _ _ _ => f⟩
      ⟨90, 0, OptionType.Call, 100, 1 / 5⟩ (by norm_num) (by norm_num) rfl).1 rfl,
   (calculate_zero_maturity_intrinsic ⟨1 / 2, ⟨1 / 10, 1 / 100⟩, by norm_num⟩
      ⟨⟨fun _ s t => s ^ 2 * t, fun _ s t => s * t⟩, fun sp _ => sp.spot, fun _ => 1,
        fun _ f _ _ _ => f⟩
      ⟨90, 0, OptionType.Put, 100, 1 / 5⟩ (by norm_num) (by norm_num) rfl).2 rfl⟩

/-- C9. Constructing the engine with a correlation outside `[-1, 1]` fails with
`ConfigurationError`; construction succeeds only for a correlation in the
range; hence every engine object, the only thing `calculate` can be invoked on,
has its correlation in `[-1, 1]`. In particular construction fails for
`rho = 3/2` and for `rho = -2`, whatever the model. -/
theorem construct_rejects_correlation_out_of_range :
    (∀ (rho : ℚ) (model : HullWhite), (rho < -1 ∨ 1 < rho) →
      AnalyticBSMHullWhiteEngine.construct rho model
        = Except.error EngineError.ConfigurationError) ∧
    (∀ (rho : ℚ) (model : HullWhite) (engine : AnalyticBSMHullWhiteEngine),
      AnalyticBSMHullWhiteEngine.construct rho model = Except.ok engine →
      -1 ≤ rho ∧ rho ≤ 1) ∧
    (∀ engine : AnalyticBSMHullWhiteEngine, -1 ≤ engine.rho_ ∧ engine.rho_ ≤ 1) ∧
    (∀ model : HullWhite,
      AnalyticBSMHullWhiteEngine.construct (3 / 2) model
        = Except.error EngineError.ConfigurationError ∧
      AnalyticBSMHullWhiteEngine.construct (-2) model
        = Except.error EngineError.ConfigurationError) := by
  have key : ∀ (rho : ℚ) (model : HullWhite), (rho < -1 ∨ 1 < rho) →
      AnalyticBSMHullWhiteEngine.construct rho model
        = Except.error EngineError.ConfigurationError := by
    intro rho model h
    have hn : ¬(-1 ≤ rho ∧ rho ≤ 1) := by
      rintro ⟨h1, h2⟩
      rcases h with h | h <;> linarith
    simp [AnalyticBSMHullWhiteEngine.construct, hn]
  refine ⟨key, ?_, fun engine => engine.rho_in_range, fun model =>
    ⟨key (3 / 2) model (Or.inr (by norm_num)), key (-2) model (Or.inl (by norm_num))⟩⟩
  intro rho model engine h
  obtain ⟨hr, _⟩ := fields_of_construct_ok rho model engine h
  rw [← hr]
  exact engine.rho_in_range

/-- C9 at `rho = 3/2` and the model `a = 1/10`, `sigma_r = 1/100`. -/
theorem construct_rejects_correlation_out_of_range_witness :
    ((3 / 2 : ℚ) < -1 ∨ 1 < (3 / 2 : ℚ)) ∧
    AnalyticBSMHullWhiteEngine.construct (3 / 2) ⟨1 / 10, 1 / 100⟩
      = Except.error EngineError.ConfigurationError :=
  ⟨Or.inr (by norm_num),
   construct_rejects_correlation_out_of_range.1 (3 / 2) ⟨1 / 10, 1 / 100⟩
     (Or.inr (by norm_num))⟩

end QuantLib
